import Mathlib

/-!
Shallow embedding of the pytorch2timeloop converter translation layer.

The Python source consists of dataclasses in
`pytorch2timeloop/utils/layer_descriptions.py` (one dataclass per operator
kind, each with a `to_yaml` and possibly a `to_fused_yaml` method producing a
nested-dictionary workload document) and hook functions in
`pytorch2timeloop/utils/converter.py` that construct those dataclasses from
observed tensor shapes and module parameters.

Modelling conventions:
- Python `int` is `Int`; tensor shapes are `List Int`.
- Python `//` (floor division) is `Int.fdiv`; `int(a / b)` (true division
  then truncation toward zero) is `Int.tdiv`.
- `functools.reduce(mul, l)` raises on an empty sequence, so it is modelled
  as `pyProduct : List Int → Option Int` returning `none` on `[]`.
- A method that can raise returns an `Option`; a method that mutates `self`
  returns the updated dataclass value alongside its result.
- Nested result dictionaries are modelled as structures whose fields mirror
  the dictionary keys; dictionaries with dynamic keys (the `instance`
  region built from dimension names) are association lists in insertion
  order, matching Python dict ordering.
-/

/-- The constant `string.ascii_uppercase`, as a list of one-letter strings. -/
def asciiUppercase : List String :=
  ["A", "B", "C", "D", "E", "F", "G", "H", "I", "J", "K", "L", "M",
   "N", "O", "P", "Q", "R", "S", "T", "U", "V", "W", "X", "Y", "Z"]

/-- Python `list(string.ascii_uppercase[:n])`: the first `n` capital letters. -/
def asciiDims (n : Nat) : List String := asciiUppercase.take n

/-- Python `reduce(lambda x, y: x*y, l)`: the product of a sequence, raising
(`none`) on an empty sequence because `reduce` has no initial value. -/
def pyProduct : List Int → Option Int
  | [] => none
  | a :: l => some (l.foldl (· * ·) a)

/-- Python dictionary assignment `d[k] = v` on an insertion-ordered
association list: update the entry in place if the key is present,
otherwise append it at the end. -/
def dictSet : List (String × Int) → String → Int → List (String × Int)
  | [], k, v => [(k, v)]
  | (k0, v0) :: rest, k, v =>
    if k0 = k then (k, v) :: rest else (k0, v0) :: dictSet rest k v

/-- One entry of a `coefficients` list: `{"name": ..., "default": ...}`. -/
structure Coefficient where
  name : String
  default : Int
deriving DecidableEq, Repr

/-- One entry of a `data-spaces` list whose projection is the usual
list-of-lists-of-factors form.  The optional `"read-write": True` key is
modelled as a Boolean field that is `false` when the key is absent. -/
structure DataSpace where
  name : String
  projection : List (List (List String))
  read_write : Bool
deriving DecidableEq, Repr

/-- The `shape` region of a convolution workload document. -/
structure ConvShapeRegion where
  name : String
  dimensions : List String
  coefficients : List Coefficient
  data_spaces : List DataSpace
deriving DecidableEq, Repr

/-- A convolution workload document: `{"shape": ..., "instance": ...}`.
The `instance` region is a dimension-name-to-bound dictionary, modelled as
an insertion-ordered association list (the field is named `instanceBounds`
because `instance` is a Lean keyword). -/
structure ConvConfig where
  shape : ConvShapeRegion
  instanceBounds : List (String × Int)
deriving DecidableEq, Repr

/-- The dataclass `ConvLayerDescription` from `layer_descriptions.py`. -/
structure ConvLayerDescription where
  name : String
  g : Int
  m : Int
  w : Int
  h : Int
  c : Int
  n : Int
  s : Int
  r : Int
  w_pad : Int
  h_pad : Int
  w_stride : Int
  h_stride : Int
  ifmap_name : String
  filter_name : String
  ofmap_name : String
deriving DecidableEq, Repr

/-- Property `q`: `int((self.w - self.s + 2 * self.w_pad) / self.w_stride) + 1`.
Python `int()` of a true-division quotient truncates toward zero, which is
`Int.tdiv`. -/
def ConvLayerDescription.q (d : ConvLayerDescription) : Int :=
  Int.tdiv (d.w - d.s + 2 * d.w_pad) d.w_stride + 1

/-- Property `p`: `int((self.h - self.r + 2 * self.h_pad) / self.h_stride) + 1`. -/
def ConvLayerDescription.p (d : ConvLayerDescription) : Int :=
  Int.tdiv (d.h - d.r + 2 * d.h_pad) d.h_stride + 1

/-- `ConvLayerDescription.to_yaml`, transcribed dictionary literal by
dictionary literal from the source.  `self.c // self.g` is Python floor
division, `Int.fdiv`. -/
def ConvLayerDescription.to_yaml (d : ConvLayerDescription) : ConvConfig :=
  let in_channels_per_group := Int.fdiv d.c d.g
  let out_channels_per_group := Int.fdiv d.m d.g
  { shape :=
      { name := d.name
        dimensions := ["G", "C", "M", "R", "S", "N", "P", "Q"]
        coefficients :=
          [ { name := "Cgroup", default := in_channels_per_group }
          , { name := "Mgroup", default := out_channels_per_group }
          , { name := "Hstride", default := d.h_stride }
          , { name := "Wstride", default := d.w_stride }
          , { name := "Nop", default := 1 } ]
        data_spaces :=
          [ { name := "Weights"
              projection := [[["G"]], [["C"]], [["M"]], [["R"]], [["S"]]]
              read_write := false }
          , { name := "Inputs"
              projection :=
                [ [["N"]]
                , [["G", "Cgroup"], ["C", "Nop"]]
                , [["R", "Nop"], ["P", "Hstride"]]
                , [["S", "Nop"], ["Q", "Wstride"]] ]
              read_write := false }
          , { name := "Outputs"
              projection :=
                [ [["N"]]
                , [["G", "Mgroup"], ["M", "Nop"]]
                , [["P"]]
                , [["Q"]] ]
              read_write := true } ] }
    instanceBounds :=
      [ ("G", d.g)
      , ("C", in_channels_per_group)
      , ("M", out_channels_per_group)
      , ("N", d.n)
      , ("R", d.r)
      , ("S", d.s)
      , ("P", d.p)
      , ("Q", d.q) ] }

/-- `ConvLayerDescription.to_fused_yaml`, transcribed from the source.  The
source body is a verbatim duplicate of `to_yaml`. -/
def ConvLayerDescription.to_fused_yaml (d : ConvLayerDescription) : ConvConfig :=
  let in_channels_per_group := Int.fdiv d.c d.g
  let out_channels_per_group := Int.fdiv d.m d.g
  { shape :=
      { name := d.name
        dimensions := ["G", "C", "M", "R", "S", "N", "P", "Q"]
        coefficients :=
          [ { name := "Cgroup", default := in_channels_per_group }
          , { name := "Mgroup", default := out_channels_per_group }
          , { name := "Hstride", default := d.h_stride }
          , { name := "Wstride", default := d.w_stride }
          , { name := "Nop", default := 1 } ]
        data_spaces :=
          [ { name := "Weights"
              projection := [[["G"]], [["C"]], [["M"]], [["R"]], [["S"]]]
              read_write := false }
          , { name := "Inputs"
              projection :=
                [ [["N"]]
                , [["G", "Cgroup"], ["C", "Nop"]]
                , [["R", "Nop"], ["P", "Hstride"]]
                , [["S", "Nop"], ["Q", "Wstride"]] ]
              read_write := false }
          , { name := "Outputs"
              projection :=
                [ [["N"]]
                , [["G", "Mgroup"], ["M", "Nop"]]
                , [["P"]]
                , [["Q"]] ]
              read_write := true } ] }
    instanceBounds :=
      [ ("G", d.g)
      , ("C", in_channels_per_group)
      , ("M", out_channels_per_group)
      , ("N", d.n)
      , ("R", d.r)
      , ("S", d.s)
      , ("P", d.p)
      , ("Q", d.q) ] }

/-- The concrete convolution of the round-trip scenario:
`n=1, c=3, m=8, h=w=32, r=s=3, stride=1, pad=1, groups=1`. -/
def convScenario : ConvLayerDescription :=
  { name := "conv1"
    g := 1
    m := 8
    w := 32
    h := 32
    c := 3
    n := 1
    s := 3
    r := 3
    w_pad := 1
    h_pad := 1
    w_stride := 1
    h_stride := 1
    ifmap_name := "input"
    filter_name := "conv1_filter"
    ofmap_name := "conv1_out" }

/-- The dataclass `MatmulFuncDescription`.  `extra_dims: Optional[tuple] = None`
is an optional list. -/
structure MatmulFuncDescription where
  name : String
  m : Int
  n : Int
  k : Int
  ifmap1_name : String
  ifmap2_name : String
  ofmap_name : String
  extra_dims : Option (List Int)
deriving DecidableEq, Repr

/-- The free function `generate_matmul_func` from `converter.py`, over the
two operand shapes.  Python `shape[:-2]` is `take (length - 2)`; the
`raise NotImplementedError` branch is `none`. -/
def generate_matmul_func (input1_shape input2_shape : List Int)
    (name input1_name input2_name : String) : Option MatmulFuncDescription :=
  if input1_shape.length = 2 ∧ input2_shape.length = 2 then
    some
      { name := name
        m := input1_shape.getD 0 0
        n := input2_shape.getD 1 0
        k := input1_shape.getD 1 0
        ifmap1_name := input1_name
        ifmap2_name := input2_name
        ofmap_name := name ++ "_out"
        extra_dims := some [] }
  else if 2 < input1_shape.length ∧
      input1_shape.take (input1_shape.length - 2) =
        input2_shape.take (input2_shape.length - 2) then
    some
      { name := name
        m := input1_shape.getD 0 0
        n := input2_shape.getD 1 0
        k := input1_shape.getD 1 0
        ifmap1_name := input1_name
        ifmap2_name := input2_name
        ofmap_name := name ++ "_out"
        extra_dims := some (input1_shape.take (input1_shape.length - 2)) }
  else
    none

/-- The dataclass `MaxPoolLayerDescription` (also used by the
adaptive-average-pool handler). -/
structure MaxPoolLayerDescription where
  name : String
  w : Int
  h : Int
  c : Int
  n : Int
  s : Int
  r : Int
  w_pad : Int
  h_pad : Int
  w_stride : Int
  h_stride : Int
  ifmap_name : String
  ofmap_name : String
deriving DecidableEq, Repr

/-- The `nn.AdaptiveAvgPool2d` handler registered on `generate_description`
in `converter.py`.  The hook receives rank-4 NCHW input and output tensors,
so `input.shape[3]`/`input.shape[-1]` are the same axis; other ranks are
outside the handler contract and are mapped to `none`, as is a zero
output extent (Python `//` raises `ZeroDivisionError` there).
`//` is floor division, `Int.fdiv`. -/
def generate_adaptive_avg_pool_description (input_shape output_shape : List Int)
    (name ifmap_name : String) : Option MaxPoolLayerDescription :=
  match input_shape, output_shape with
  | [n, c, h, w], [_on, _oc, oh, ow] =>
    if ow = 0 ∨ oh = 0 then none
    else
      let stride_w := Int.fdiv w ow
      let stride_h := Int.fdiv h oh
      let kernel_w := w - (ow - 1) * stride_w
      let kernel_h := h - (oh - 1) * stride_h
      some
        { w := w
          h := h
          c := c
          s := kernel_w
          r := kernel_h
          w_stride := stride_w
          h_stride := stride_h
          w_pad := 0
          h_pad := 0
          n := n
          name := name
          ofmap_name := name ++ "_out"
          ifmap_name := ifmap_name }
  | _, _ => none

/-- A workload document of the form
`{"shape": {"name", "dimensions", "data-spaces"}, "instance": ...}`, used
both by the binary-elementwise translation (which builds it from scratch)
and as the `problem` payload of a template-based translation such as
matmul. -/
structure WorkloadShapeRegion where
  name : String
  dimensions : List String
  data_spaces : List DataSpace
deriving DecidableEq, Repr

/-- See `WorkloadShapeRegion`; `instanceBounds` models the `instance`
dictionary (a Lean keyword forces the rename). -/
structure WorkloadConfig where
  shape : WorkloadShapeRegion
  instanceBounds : List (String × Int)
deriving DecidableEq, Repr

/-- The dataclass `BinaryElementwiseFuncDescription`. -/
structure BinaryElementwiseFuncDescription where
  name : String
  ifmap1_shape : List Int
  ifmap2_shape : List Int
  ofmap_shape : List Int
  ifmap1_name : String
  ifmap2_name : String
  ofmap_name : String
deriving DecidableEq, Repr

/-- The left-padding `tuple([1]*n_missing_dims + list(shape))` applied by
both binary-elementwise translation methods when a shape is shorter than
the output shape; a shape at least as long as the target is untouched. -/
def binLeftPad (target : Nat) (l : List Int) : List Int :=
  if l.length < target then List.replicate (target - l.length) 1 ++ l else l

/-- The in-place broadcast padding performed at the start of both
`BinaryElementwiseFuncDescription.to_yaml` and `to_fused_yaml`:
`self.ifmap1_shape` and `self.ifmap2_shape` are reassigned to their
left-padded versions. -/
def BinaryElementwiseFuncDescription.padShapes
    (d : BinaryElementwiseFuncDescription) : BinaryElementwiseFuncDescription :=
  { d with
    ifmap1_shape := binLeftPad d.ofmap_shape.length d.ifmap1_shape
    ifmap2_shape := binLeftPad d.ofmap_shape.length d.ifmap2_shape }

/-- The document built by both binary-elementwise translation methods from
the (already padded, possibly renamed) description: dimensions are the
first `len(ofmap_shape)` capital letters, every data-space projects
identically onto all dimensions, and the instance bounds pair the
dimension letters with `self.ifmap1_shape` positionally. -/
def binElemConfig (d : BinaryElementwiseFuncDescription) : WorkloadConfig :=
  let dims := asciiDims d.ofmap_shape.length
  { shape :=
      { name := d.name
        dimensions := dims
        data_spaces :=
          [ { name := "Weights"
              projection := dims.map fun x => [[x]]
              read_write := false }
          , { name := "Inputs"
              projection := dims.map fun x => [[x]]
              read_write := false }
          , { name := "Outputs"
              projection := dims.map fun x => [[x]]
              read_write := true } ] }
    instanceBounds := dims.zip d.ifmap1_shape }

/-- `BinaryElementwiseFuncDescription.to_yaml`: pad the input shapes in
place, check both rank assertions, compute `product(self.ifmap1_shape)`
(which raises on an empty shape), append `"_exhaustive"` to the stored
name when that product is 1, and emit the document.  The returned pair is
(mutated description, result). -/
def BinaryElementwiseFuncDescription.to_yaml (d0 : BinaryElementwiseFuncDescription) :
    BinaryElementwiseFuncDescription × Option WorkloadConfig :=
  let d := d0.padShapes
  if d.ifmap1_shape.length = d.ofmap_shape.length then
    if d.ifmap2_shape.length = d.ofmap_shape.length then
      match pyProduct d.ifmap1_shape with
      | some ifmap_prod =>
        let d := if ifmap_prod = 1 then { d with name := d.name ++ "_exhaustive" } else d
        (d, some (binElemConfig d))
      | none => (d, none)
    else (d, none)
  else (d, none)

/-- `BinaryElementwiseFuncDescription.to_fused_yaml`: identical to
`to_yaml` except that it computes no product and never renames. -/
def BinaryElementwiseFuncDescription.to_fused_yaml (d0 : BinaryElementwiseFuncDescription) :
    BinaryElementwiseFuncDescription × Option WorkloadConfig :=
  let d := d0.padShapes
  if d.ifmap1_shape.length = d.ofmap_shape.length then
    if d.ifmap2_shape.length = d.ofmap_shape.length then
      (d, some (binElemConfig d))
    else (d, none)
  else (d, none)

/-- `MatmulFuncDescription.to_yaml`.  The template document loaded from the
`matmul` YAML resource is not part of the translated sources, so it enters
as a parameter; the base-class step `config["problem"]["shape"]["name"] = self.name` and every subsequent update follow the source.  A `None`
`extra_dims` is reassigned to the empty tuple on `self`. -/
def MatmulFuncDescription.to_yaml (template : WorkloadConfig)
    (d0 : MatmulFuncDescription) : MatmulFuncDescription × WorkloadConfig :=
  let config : WorkloadConfig :=
    { template with shape := { template.shape with name := d0.name } }
  let dims : List String :=
    match d0.extra_dims with
    | some ed => asciiDims ed.length
    | none => []
  let d :=
    match d0.extra_dims with
    | some _ => d0
    | none => { d0 with extra_dims := some [] }
  let config :=
    { config with
      shape :=
        { config.shape with
          data_spaces := config.shape.data_spaces.map fun (ds0 : DataSpace) =>
            let ds :=
              if ds0.name = "Input1" then { ds0 with name := d.ifmap1_name }
              else if ds0.name = "Input2" then { ds0 with name := d.ifmap2_name }
              else if ds0.name = "Outputs" then { ds0 with name := d.ofmap_name }
              else ds0
            { ds with projection := (dims.map fun x => [[x]]) ++ ds.projection } } }
  let inst := dictSet (dictSet (dictSet config.instanceBounds "K" d.k) "M" d.m) "N" d.n
  let config := { config with shape := { config.shape with name := d.name } }
  let inst := (dims.zip (d.extra_dims.getD [])).foldl
    (fun acc p => dictSet acc p.1 p.2) inst
  (d, { config with instanceBounds := inst })

/-- A binary-elementwise description whose first input shape is shorter
than the output shape, so translation left-pads it in place. -/
def binPadExample : BinaryElementwiseFuncDescription :=
  { name := "add"
    ifmap1_shape := [3]
    ifmap2_shape := [2, 3]
    ofmap_shape := [2, 3]
    ifmap1_name := "x"
    ifmap2_name := "y"
    ofmap_name := "add_out" }

/-- A binary-elementwise description whose first input has a singleton
extent broadcast against an output extent of 4. -/
def binBroadcastExample : BinaryElementwiseFuncDescription :=
  { name := "mul"
    ifmap1_shape := [1]
    ifmap2_shape := [4]
    ofmap_shape := [4]
    ifmap1_name := "x"
    ifmap2_name := "y"
    ofmap_name := "mul_out" }

/-- The description state after translating `binBroadcastExample`: the
all-singleton first input triggers the `"_exhaustive"` rename. -/
def binBroadcastRenamed : BinaryElementwiseFuncDescription :=
  { binBroadcastExample with name := "mul_exhaustive" }

/-- The document emitted for `binBroadcastExample`. -/
def binBroadcastConfig : WorkloadConfig :=
  { shape :=
      { name := "mul_exhaustive"
        dimensions := ["A"]
        data_spaces :=
          [ { name := "Weights", projection := [[["A"]]], read_write := false }
          , { name := "Inputs", projection := [[["A"]]], read_write := false }
          , { name := "Outputs", projection := [[["A"]]], read_write := true } ] }
    instanceBounds := [("A", 1)] }

/-- A data-space of the view document, whose projection is a single
symbolic expression string rather than a list of factor lists. -/
structure ViewDataSpace where
  name : String
  projection : String
  read_write : Bool
deriving DecidableEq, Repr

/-- The `shape` region of a view workload document. -/
structure ViewShapeRegion where
  name : String
  dimensions : List String
  data_spaces : List ViewDataSpace
deriving DecidableEq, Repr

/-- A view workload document; its `instance` region is a single constraint
string (field renamed `instanceStr`, `instance` being a Lean keyword). -/
structure ViewConfig where
  shape : ViewShapeRegion
  instanceStr : String
deriving DecidableEq, Repr

/-- The dataclass `ViewFuncDescription`. -/
structure ViewFuncDescription where
  name : String
  ifmap_shape : List Int
  ofmap_shape : List Int
  ifmap_name : String
  ofmap_name : String
deriving DecidableEq, Repr

/-- `ViewFuncDescription.to_yaml` raises `NotImplementedError`
unconditionally ("cannot be implemented in old Timeloop spec"). -/
def ViewFuncDescription.to_yaml (_d : ViewFuncDescription) : Option ViewConfig :=
  none

/-- The f-string `floor({linearized_ofmaps}/{cur_size})%{dim_size}` built
for one input axis of a view. -/
def ifmapTerm (lin : String) (cur sz : Int) : String :=
  "floor(" ++ lin ++ "/" ++ toString cur ++ ")%" ++ toString sz

/-- The loop pattern shared by the two accumulation loops of
`ViewFuncDescription.to_fused_yaml`: walk a list keeping a running stride
`cur_size`, append `f cur_size x` for each element, then multiply
`cur_size` by `g x`. -/
def strideFold {α : Type*} (f : Int → α → String) (g : α → Int)
    (l : List α) (acc : List String × Int) : List String × Int :=
  l.foldl (fun p x => (p.1 ++ [f p.2 x], p.2 * g x)) acc

/-- The string `" + ".join(terms)` for the linearized output index of a
view: terms are generated over `reversed(list(zip(ofmap_dims,
self.ofmap_shape)))` with the running stride, and joined without a final
reversal, so the fastest-varying (last) output dimension comes first. -/
def ViewFuncDescription.linearized_ofmaps (d : ViewFuncDescription) : String :=
  String.intercalate " + "
    (strideFold (fun cur p => p.1 ++ "*" ++ toString cur) Prod.snd
      ((asciiDims d.ofmap_shape.length).zip d.ofmap_shape).reverse ([], 1)).1

/-- `ViewFuncDescription.to_fused_yaml`: assert that the two element
counts (computed by the raising `reduce`) agree, then emit the document
whose input projection recovers each input coordinate from the linearized
output index. -/
def ViewFuncDescription.to_fused_yaml (d : ViewFuncDescription) : Option ViewConfig :=
  match pyProduct d.ifmap_shape, pyProduct d.ofmap_shape with
  | some prod_i, some prod_o =>
    if prod_i = prod_o then
      let ofmap_dims := asciiDims d.ofmap_shape.length
      let bounds := (ofmap_dims.zip d.ofmap_shape).map
        (fun p => "0 <= " ++ p.1 ++ " < " ++ toString p.2)
      let lin := d.linearized_ofmaps
      let ifmap_terms :=
        (strideFold (ifmapTerm lin) (fun x => x) d.ifmap_shape.reverse ([], 1)).1.reverse
      some
        { shape :=
            { name := d.name
              dimensions := ofmap_dims
              data_spaces :=
                [ { name := d.ifmap_name
                    projection := "[ " ++ String.intercalate ", " ifmap_terms ++ " ]"
                    read_write := false }
                , { name := d.ofmap_name
                    projection := "[ " ++ String.intercalate ", " ofmap_dims ++ " ]"
                    read_write := true } ] }
          instanceStr := String.intercalate " and " bounds }
    else none
  | _, _ => none

/-- The list built by a `strideFold` starting at stride `cur`, in
generation order: element `x` is rendered with the stride accumulated so
far, which then grows by `g x`. -/
def runTerms {α : Type*} (f : Int → α → String) (g : α → Int) (cur : Int) :
    List α → List String
  | [] => []
  | x :: r => f cur x :: runTerms f g (cur * g x) r

/-- The same terms indexed against the original (unreversed) list: element
`x` at any position is rendered with the product of the `g`-values of all
later elements — its row-major stride. -/
def suffixTerms {α : Type*} (f : Int → α → String) (g : α → Int) (cur : Int) :
    List α → List String
  | [] => []
  | x :: r => f (cur * (r.map g).prod) x :: suffixTerms f g cur r

/-- The view of the reshape scenario: input shape `(2,3,4)`, output shape
`(6,4)`. -/
def viewExample : ViewFuncDescription :=
  { name := "view"
    ifmap_shape := [2, 3, 4]
    ofmap_shape := [6, 4]
    ifmap_name := "x"
    ofmap_name := "view_out" }

/-- The document emitted for `viewExample`: the output linearization is
`B*1 + A*4` and each of the three input axes gets one
`floor(linear/stride)%size` expression with row-major strides 12, 4, 1. -/
def viewExampleConfig : ViewConfig :=
  { shape :=
      { name := "view"
        dimensions := ["A", "B"]
        data_spaces :=
          [ { name := "x"
              projection :=
                "[ floor(B*1 + A*4/12)%2, floor(B*1 + A*4/4)%3, floor(B*1 + A*4/1)%4 ]"
              read_write := false }
          , { name := "view_out"
              projection := "[ A, B ]"
              read_write := true } ] }
    instanceStr := "0 <= A < 6 and 0 <= B < 4" }

/-- A view whose input and output shapes are both the empty tuple: both
element counts are the empty product 1, yet the translation raises inside
`reduce`. -/
def viewEmptyExample : ViewFuncDescription :=
  { name := "flatten"
    ifmap_shape := []
    ofmap_shape := []
    ifmap_name := "x"
    ofmap_name := "flatten_out" }

theorem int_tdiv_eq_fdiv (a b : Int) (ha : 0 ≤ a) (hb : 0 ≤ b) :
    Int.tdiv a b = Int.fdiv a b :=
  (Int.fdiv_eq_tdiv ha hb).symm

/-- Claim C3: for every `ConvLayerDescription`, the legacy translation `to_yaml`
and the fused translation `to_fused_yaml` return structurally identical
documents — the same shape region (name, dimensions, coefficients,
data-spaces with projections and read-write flags) and the same instance
region. -/
theorem conv_to_yaml_eq_to_fused_yaml (d : ConvLayerDescription) :
    d.to_yaml = d.to_fused_yaml := rfl

/-- Claim C4: the convolution with `n=1, c=3, m=8, h=w=32, r=s=3, stride=1, pad=1,
groups=1` has derived output extents `p = q = 32`, and its `to_yaml`
document instance region is exactly
`{G:1, C:3, M:8, N:1, R:3, S:3, P:32, Q:32}`. -/
theorem conv_scenario_instance_bounds :
    convScenario.p = 32 ∧ convScenario.q = 32 ∧
    convScenario.to_yaml.instanceBounds =
      [ ("G", 1), ("C", 3), ("M", 8), ("N", 1)
      , ("R", 3), ("S", 3), ("P", 32), ("Q", 32) ] :=
  ⟨rfl, rfl, rfl⟩

/-- Claim C5: for positive strides and non-negative padded extents, the derived
output extents follow the standard forward-convolution size formula
`floor((in - kernel + 2*pad) / stride) + 1`; in particular with stride 1,
no padding and groups 1 they reduce to `in - kernel + 1`. -/
theorem conv_output_extent_formula :
    (∀ d : ConvLayerDescription,
      0 < d.w_stride → 0 ≤ d.w - d.s + 2 * d.w_pad →
      d.q = Int.fdiv (d.w - d.s + 2 * d.w_pad) d.w_stride + 1) ∧
    (∀ d : ConvLayerDescription,
      0 < d.h_stride → 0 ≤ d.h - d.r + 2 * d.h_pad →
      d.p = Int.fdiv (d.h - d.r + 2 * d.h_pad) d.h_stride + 1) ∧
    (∀ d : ConvLayerDescription,
      d.g = 1 → d.w_stride = 1 → d.w_pad = 0 → d.q = d.w - d.s + 1) ∧
    (∀ d : ConvLayerDescription,
      d.g = 1 → d.h_stride = 1 → d.h_pad = 0 → d.p = d.h - d.r + 1) := by
  refine ⟨fun d hs hn => ?_, fun d hs hn => ?_, fun d _ hs hp => ?_, fun d _ hs hp => ?_⟩
  · rw [ConvLayerDescription.q, int_tdiv_eq_fdiv _ _ hn (le_of_lt hs)]
  · rw [ConvLayerDescription.p, int_tdiv_eq_fdiv _ _ hn (le_of_lt hs)]
  · rw [ConvLayerDescription.q, hs, hp]
    rw [Int.tdiv_one]
    ring
  · rw [ConvLayerDescription.p, hs, hp]
    rw [Int.tdiv_one]
    ring

/-- Witness for C5 at the concrete convolution scenario: the hypotheses hold
there and the formula evaluates to the expected extent. -/
theorem conv_output_extent_formula_witness :
    (0 < convScenario.w_stride ∧ 0 ≤ convScenario.w - convScenario.s + 2 * convScenario.w_pad) ∧
    convScenario.q = Int.fdiv (convScenario.w - convScenario.s + 2 * convScenario.w_pad)
      convScenario.w_stride + 1 :=
  ⟨⟨by decide, by decide⟩,
   conv_output_extent_formula.1 convScenario (by decide) (by decide)⟩

/-- Claim C1 evidence: what `generate_matmul_func` actually produces on the two scenario
shape pairs.  Rank-2 operands `(4,8) × (8,16)` give `m=4, n=16, k=8` with
empty `extra_dims` as the claim states; but rank-3 operands
`(2,4,8) × (2,8,16)` give `m=2, n=8, k=4` — the same positional indices
`shape[0]`/`shape[1]` as the rank-2 case, not the trailing two axes — with
`extra_dims = (2,)`.  The claimed `m=4, n=16, k=8` does not hold there. -/
theorem generate_matmul_func_scenario_values :
    generate_matmul_func [4, 8] [8, 16] "mm" "in1" "in2" =
      some
        { name := "mm", m := 4, n := 16, k := 8
          ifmap1_name := "in1", ifmap2_name := "in2"
          ofmap_name := "mm_out", extra_dims := some [] } ∧
    generate_matmul_func [2, 4, 8] [2, 8, 16] "mm" "in1" "in2" =
      some
        { name := "mm", m := 2, n := 8, k := 4
          ifmap1_name := "in1", ifmap2_name := "in2"
          ofmap_name := "mm_out", extra_dims := some [2] } :=
  ⟨rfl, rfl⟩

/-- Claim C8: `generate_matmul_func` fails (returns no description) exactly when
the operand shapes are neither both of rank 2 nor (first operand of rank
greater than 2 with the leading dimensions of both operands equal); in
particular shapes `(2,4,8) × (3,8,16)` fail. -/
theorem generate_matmul_func_unsupported_shapes :
    (∀ (s1 s2 : List Int) (name n1 n2 : String),
      generate_matmul_func s1 s2 name n1 n2 = none ↔
        ¬((s1.length = 2 ∧ s2.length = 2) ∨
          (2 < s1.length ∧
            s1.take (s1.length - 2) = s2.take (s2.length - 2)))) ∧
    generate_matmul_func [2, 4, 8] [3, 8, 16] "mm" "in1" "in2" = none := by
  constructor
  · intro s1 s2 name n1 n2
    rw [generate_matmul_func]
    split
    · next h =>
      simp only [reduceCtorEq, false_iff, not_not]
      exact Or.inl h
    · next h1 =>
      split
      · next h2 =>
        simp only [reduceCtorEq, false_iff, not_not]
        exact Or.inr h2
      · next h2 =>
        simp only [true_iff]
        intro hc
        rcases hc with hc | hc
        · exact h1 hc
        · exact h2 hc
  · rfl

/-- Claim C9: every adaptive-average-pool classification with non-zero output
spatial extents constructs a pooling description with
`stride = floor(in / out)` and `kernel = in - (out - 1) * stride` per axis
and zero padding. -/
theorem adaptive_avg_pool_derived_geometry
    (n c h w n2 c2 oh ow : Int) (name ifmap_name : String)
    (hoh : oh ≠ 0) (how : ow ≠ 0) :
    generate_adaptive_avg_pool_description [n, c, h, w] [n2, c2, oh, ow]
      name ifmap_name =
    some
      { w := w
        h := h
        c := c
        s := w - (ow - 1) * Int.fdiv w ow
        r := h - (oh - 1) * Int.fdiv h oh
        w_stride := Int.fdiv w ow
        h_stride := Int.fdiv h oh
        w_pad := 0
        h_pad := 0
        n := n
        name := name
        ofmap_name := name ++ "_out"
        ifmap_name := ifmap_name } := by
  rw [generate_adaptive_avg_pool_description]
  rw [if_neg]
  intro hc
  rcases hc with hc | hc
  · exact how hc
  · exact hoh hc

/-- Witness for C9 at the spec scenario: input spatial `7 × 7`, output
spatial `1 × 1` derives `stride = 7`, `kernel = 7`, `pad = 0`. -/
theorem adaptive_avg_pool_derived_geometry_witness :
    ((1 : Int) ≠ 0 ∧ (1 : Int) ≠ 0) ∧
    generate_adaptive_avg_pool_description [1, 512, 7, 7] [1, 512, 1, 1]
      "pool" "x" =
    some
      { w := 7
        h := 7
        c := 512
        s := 7 - (1 - 1) * Int.fdiv 7 1
        r := 7 - (1 - 1) * Int.fdiv 7 1
        w_stride := Int.fdiv 7 1
        h_stride := Int.fdiv 7 1
        w_pad := 0
        h_pad := 0
        n := 1
        name := "pool"
        ofmap_name := "pool" ++ "_out"
        ifmap_name := "x" } :=
  ⟨⟨by decide, by decide⟩,
   adaptive_avg_pool_derived_geometry 1 512 7 7 1 512 1 1 "pool" "x"
     (by decide) (by decide)⟩

theorem list_foldl_mul (l : List Int) (a : Int) :
    l.foldl (· * ·) a = a * l.prod := by
  induction l generalizing a with
  | nil => simp
  | cons x r ih => simp [List.foldl_cons, ih, List.prod_cons, mul_assoc]

theorem pyProduct_eq_some {l : List Int} {x : Int}
    (h : pyProduct l = some x) : x = l.prod := by
  cases l with
  | nil => simp [pyProduct] at h
  | cons a r =>
    simp only [pyProduct, Option.some.injEq] at h
    rw [← h, list_foldl_mul, List.prod_cons]

/-- Counterexample for claim C2: translation is not free of effects on the stored
fields beyond the name.  Translating `binPadExample` rewrites its stored
`ifmap1_shape` from `(3,)` to the left-padded `(1, 3)`. -/
theorem binary_to_yaml_mutates_ifmap1_shape :
    (BinaryElementwiseFuncDescription.to_yaml binPadExample).1.ifmap1_shape ≠
      binPadExample.ifmap1_shape := by decide

/-- Claim C2 as amended: a translation call leaves every stored field of the
description unchanged except that the name may gain a suffix, that the
binary-elementwise methods replace `ifmap1_shape` and `ifmap2_shape` by
their left-padded-to-output-rank versions, and that
`MatmulFuncDescription.to_yaml` replaces an absent (`None`) `extra_dims`
by the empty tuple. -/
theorem translation_state_effects :
    (∀ d : BinaryElementwiseFuncDescription,
      (BinaryElementwiseFuncDescription.to_yaml d).1.ifmap1_shape =
          binLeftPad d.ofmap_shape.length d.ifmap1_shape ∧
      (BinaryElementwiseFuncDescription.to_yaml d).1.ifmap2_shape =
          binLeftPad d.ofmap_shape.length d.ifmap2_shape ∧
      (BinaryElementwiseFuncDescription.to_yaml d).1.ofmap_shape = d.ofmap_shape ∧
      (BinaryElementwiseFuncDescription.to_yaml d).1.ifmap1_name = d.ifmap1_name ∧
      (BinaryElementwiseFuncDescription.to_yaml d).1.ifmap2_name = d.ifmap2_name ∧
      (BinaryElementwiseFuncDescription.to_yaml d).1.ofmap_name = d.ofmap_name ∧
      ((BinaryElementwiseFuncDescription.to_yaml d).1.name = d.name ∨
        (BinaryElementwiseFuncDescription.to_yaml d).1.name = d.name ++ "_exhaustive")) ∧
    (∀ d : BinaryElementwiseFuncDescription,
      (BinaryElementwiseFuncDescription.to_fused_yaml d).1 = d.padShapes) ∧
    (∀ (t : WorkloadConfig) (d : MatmulFuncDescription),
      (MatmulFuncDescription.to_yaml t d).1.name = d.name ∧
      (MatmulFuncDescription.to_yaml t d).1.m = d.m ∧
      (MatmulFuncDescription.to_yaml t d).1.n = d.n ∧
      (MatmulFuncDescription.to_yaml t d).1.k = d.k ∧
      (MatmulFuncDescription.to_yaml t d).1.ifmap1_name = d.ifmap1_name ∧
      (MatmulFuncDescription.to_yaml t d).1.ifmap2_name = d.ifmap2_name ∧
      (MatmulFuncDescription.to_yaml t d).1.ofmap_name = d.ofmap_name ∧
      (MatmulFuncDescription.to_yaml t d).1.extra_dims =
        some (d.extra_dims.getD [])) := by
  refine ⟨fun d => ?_, fun d => ?_, fun t d => ?_⟩
  · unfold BinaryElementwiseFuncDescription.to_yaml
    dsimp only
    split
    · split
      · split
        · split
          · exact ⟨rfl, rfl, rfl, rfl, rfl, rfl, Or.inr rfl⟩
          · exact ⟨rfl, rfl, rfl, rfl, rfl, rfl, Or.inl rfl⟩
        · exact ⟨rfl, rfl, rfl, rfl, rfl, rfl, Or.inl rfl⟩
      · exact ⟨rfl, rfl, rfl, rfl, rfl, rfl, Or.inl rfl⟩
    · exact ⟨rfl, rfl, rfl, rfl, rfl, rfl, Or.inl rfl⟩
  · unfold BinaryElementwiseFuncDescription.to_fused_yaml
    dsimp only
    split
    · split
      · rfl
      · rfl
    · rfl
  · obtain ⟨nm, m, n, k, i1, i2, o, ed⟩ := d
    cases ed with
    | some l => exact ⟨rfl, rfl, rfl, rfl, rfl, rfl, rfl, rfl⟩
    | none => exact ⟨rfl, rfl, rfl, rfl, rfl, rfl, rfl, rfl⟩

/-- Claim C10: whenever `BinaryElementwiseFuncDescription.to_yaml` succeeds, the
emitted instance bounds pair the dimension letters positionally with the
left-padded first input shape (never the output shape), and the
`"_exhaustive"` suffix is decided by `product(ifmap1_shape) == 1` alone. -/
theorem binary_bounds_from_ifmap1
    (d dr : BinaryElementwiseFuncDescription) (cfg : WorkloadConfig)
    (h : BinaryElementwiseFuncDescription.to_yaml d = (dr, some cfg)) :
    cfg.instanceBounds =
      (asciiDims d.ofmap_shape.length).zip
        (binLeftPad d.ofmap_shape.length d.ifmap1_shape) ∧
    dr.name =
      (if (binLeftPad d.ofmap_shape.length d.ifmap1_shape).prod = 1
        then d.name ++ "_exhaustive" else d.name) := by
  unfold BinaryElementwiseFuncDescription.to_yaml at h
  dsimp only at h
  split at h
  · split at h
    · split at h
      · next heq =>
        have hprod := pyProduct_eq_some heq
        split at h
        · next hone =>
          cases h
          exact ⟨rfl, (if_pos (hprod.symm.trans hone)).symm⟩
        · next hone =>
          cases h
          exact ⟨rfl, (if_neg (fun hc => hone (hprod.trans hc))).symm⟩
      · exact absurd (congrArg Prod.snd h) (by simp)
    · exact absurd (congrArg Prod.snd h) (by simp)
  · exact absurd (congrArg Prod.snd h) (by simp)

/-- Witness for C10: the broadcast example with first input shape `(1,)`
and output shape `(4,)` emits the bound `A = 1` taken from the first
input, not the output extent 4, and is renamed `"mul_exhaustive"`. -/
theorem binary_bounds_from_ifmap1_witness :
    BinaryElementwiseFuncDescription.to_yaml binBroadcastExample =
      (binBroadcastRenamed, some binBroadcastConfig) ∧
    (binBroadcastConfig.instanceBounds =
      (asciiDims binBroadcastExample.ofmap_shape.length).zip
        (binLeftPad binBroadcastExample.ofmap_shape.length
          binBroadcastExample.ifmap1_shape) ∧
    binBroadcastRenamed.name =
      (if (binLeftPad binBroadcastExample.ofmap_shape.length
            binBroadcastExample.ifmap1_shape).prod = 1
        then binBroadcastExample.name ++ "_exhaustive"
        else binBroadcastExample.name)) :=
  ⟨by decide,
   binary_bounds_from_ifmap1 binBroadcastExample binBroadcastRenamed
     binBroadcastConfig (by decide)⟩

theorem strideFold_eq {α : Type*} (f : Int → α → String) (g : α → Int)
    (l : List α) :
    ∀ (acc : List String) (cur : Int),
      strideFold f g l (acc, cur) =
        (acc ++ runTerms f g cur l, cur * (l.map g).prod) := by
  induction l with
  | nil => intro acc cur; simp [strideFold, runTerms]
  | cons x r ih =>
    intro acc cur
    simp only [strideFold, List.foldl_cons]
    have hr := ih (acc ++ [f cur x]) (cur * g x)
    simp only [strideFold] at hr
    rw [hr]
    simp [runTerms, mul_assoc]

theorem runTerms_append {α : Type*} (f : Int → α → String) (g : α → Int)
    (xs ys : List α) :
    ∀ cur : Int,
      runTerms f g cur (xs ++ ys) =
        runTerms f g cur xs ++ runTerms f g (cur * (xs.map g).prod) ys := by
  induction xs with
  | nil => intro cur; simp [runTerms]
  | cons x r ih =>
    intro cur
    simp [runTerms, ih, mul_assoc]

theorem runTerms_reverse {α : Type*} (f : Int → α → String) (g : α → Int)
    (l : List α) (cur : Int) :
    runTerms f g cur l.reverse = (suffixTerms f g cur l).reverse := by
  induction l with
  | nil => simp [runTerms, suffixTerms]
  | cons x r ih =>
    rw [List.reverse_cons, runTerms_append, ih]
    simp [runTerms, suffixTerms, List.map_reverse, List.prod_reverse]

theorem suffixTerms_length {α : Type*} (f : Int → α → String) (g : α → Int)
    (cur : Int) (l : List α) :
    (suffixTerms f g cur l).length = l.length := by
  induction l with
  | nil => rfl
  | cons x r ih => simp [suffixTerms, ih]

theorem suffixTerms_getD {α : Type*} (f : Int → α → String) (g : α → Int)
    (cur : Int) (d0 : α) (l : List α) :
    ∀ i : Nat, i < l.length →
      (suffixTerms f g cur l).getD i "" =
        f (cur * ((l.drop (i + 1)).map g).prod) (l.getD i d0) := by
  induction l with
  | nil => intro i hi; simp at hi
  | cons x r ih =>
    intro i hi
    cases i with
    | zero => simp [suffixTerms]
    | succ j =>
      have hj : j < r.length := by simpa using hi
      simp only [suffixTerms, List.getD_cons_succ, List.drop_succ_cons]
      exact ih j hj

theorem pyProduct_of_ne_nil {l : List Int} (h : l ≠ []) :
    pyProduct l = some l.prod := by
  cases l with
  | nil => exact absurd rfl h
  | cons a r => simp [pyProduct, list_foldl_mul, List.prod_cons]

/-- Counterexample for claim C6: `viewEmptyExample` has equal input and output
element counts, but `to_fused_yaml` still fails, because `reduce` with no
initial value raises on an empty sequence; so "fails exactly when the
products differ" does not hold as stated. -/
theorem view_fused_fails_on_equal_empty_products :
    viewEmptyExample.ifmap_shape.prod = viewEmptyExample.ofmap_shape.prod ∧
    ViewFuncDescription.to_fused_yaml viewEmptyExample = none :=
  ⟨rfl, rfl⟩

/-- Claim C6 as amended: the legacy translation `to_yaml` fails for every view
description, and on non-empty shapes the fused translation fails exactly
when the input and output element counts differ (an empty shape makes the
product reduction itself raise). -/
theorem view_translation_modes :
    (∀ d : ViewFuncDescription, ViewFuncDescription.to_yaml d = none) ∧
    (∀ d : ViewFuncDescription, d.ifmap_shape ≠ [] → d.ofmap_shape ≠ [] →
      (ViewFuncDescription.to_fused_yaml d = none ↔
        d.ifmap_shape.prod ≠ d.ofmap_shape.prod)) := by
  refine ⟨fun d => rfl, fun d h1 h2 => ?_⟩
  unfold ViewFuncDescription.to_fused_yaml
  rw [pyProduct_of_ne_nil h1, pyProduct_of_ne_nil h2]
  dsimp only
  split
  · next heq => simp [heq]
  · next hne => simp [hne]

/-- Witness for C6 at the reshape scenario `(2,3,4) → (6,4)`: both shapes
are non-empty, the products agree (24 = 24), and accordingly the fused
translation succeeds. -/
theorem view_translation_modes_witness :
    (viewExample.ifmap_shape ≠ [] ∧ viewExample.ofmap_shape ≠ []) ∧
    (ViewFuncDescription.to_fused_yaml viewExample = none ↔
      viewExample.ifmap_shape.prod ≠ viewExample.ofmap_shape.prod) :=
  ⟨⟨by decide, by decide⟩,
   view_translation_modes.2 viewExample (by decide) (by decide)⟩

/-- Claim C7: whenever the fused view translation succeeds, the emitted document
names its dimensions after the output axes, and its input data-space is a
bracketed list of exactly one symbolic expression per input axis, the one
for input axis `i` being `floor(L/stride_i)%size_i` where `stride_i` is
the row-major stride (the product of the later input extents) and `L` is
the row-major linearization of the output dimensions, listing each output
dimension times the product of the later output extents, fastest-varying
(last) dimension first. -/
theorem view_fused_projection_structure
    (d : ViewFuncDescription) (cfg : ViewConfig)
    (h : ViewFuncDescription.to_fused_yaml d = some cfg) :
    cfg.shape.dimensions = asciiDims d.ofmap_shape.length ∧
    (∃ ts : List String,
      ts.length = d.ifmap_shape.length ∧
      (∀ i : Nat, i < d.ifmap_shape.length →
        ts.getD i "" =
          "floor(" ++ d.linearized_ofmaps ++ "/" ++
            toString ((d.ifmap_shape.drop (i + 1)).prod) ++ ")%" ++
            toString (d.ifmap_shape.getD i 0)) ∧
      cfg.shape.data_spaces =
        [ { name := d.ifmap_name
            projection := "[ " ++ String.intercalate ", " ts ++ " ]"
            read_write := false }
        , { name := d.ofmap_name
            projection := "[ " ++
              String.intercalate ", " (asciiDims d.ofmap_shape.length) ++ " ]"
            read_write := true } ]) ∧
    d.linearized_ofmaps =
      String.intercalate " + "
        (suffixTerms (fun cur p => p.1 ++ "*" ++ toString cur) Prod.snd 1
          ((asciiDims d.ofmap_shape.length).zip d.ofmap_shape)).reverse := by
  have hlin :
      d.linearized_ofmaps =
        String.intercalate " + "
          (suffixTerms (fun cur p => p.1 ++ "*" ++ toString cur) Prod.snd 1
            ((asciiDims d.ofmap_shape.length).zip d.ofmap_shape)).reverse := by
    rw [ViewFuncDescription.linearized_ofmaps, strideFold_eq]
    rw [List.nil_append, runTerms_reverse]
  have hterms :
      (strideFold (ifmapTerm d.linearized_ofmaps) (fun x => x)
        d.ifmap_shape.reverse ([], 1)).1.reverse =
      suffixTerms (ifmapTerm d.linearized_ofmaps) (fun x => x) 1 d.ifmap_shape := by
    rw [strideFold_eq]
    rw [List.nil_append, runTerms_reverse, List.reverse_reverse]
  unfold ViewFuncDescription.to_fused_yaml at h
  split at h
  · dsimp only at h
    split at h
    · injection h with hcfg
      subst hcfg
      refine ⟨rfl, ⟨suffixTerms (ifmapTerm d.linearized_ofmaps) (fun x => x) 1
        d.ifmap_shape, suffixTerms_length .., fun i hi => ?_, ?_⟩, hlin⟩
      · rw [suffixTerms_getD (ifmapTerm d.linearized_ofmaps) (fun x => x) 1 0
          d.ifmap_shape i hi]
        simp [ifmapTerm]
      · rw [← hterms]
    · exact absurd h (by simp)
  · exact absurd h (by simp)

/-- Witness for C7 at the reshape scenario `(2,3,4) → (6,4)`: the fused
translation succeeds with the concrete document `viewExampleConfig`, whose
input projection holds exactly 3 expressions over the linearization
`B*1 + A*4` of the two output dimensions. -/
theorem view_fused_projection_structure_witness :
    ViewFuncDescription.to_fused_yaml viewExample = some viewExampleConfig ∧
    (viewExampleConfig.shape.dimensions = asciiDims viewExample.ofmap_shape.length ∧
    (∃ ts : List String,
      ts.length = viewExample.ifmap_shape.length ∧
      (∀ i : Nat, i < viewExample.ifmap_shape.length →
        ts.getD i "" =
          "floor(" ++ viewExample.linearized_ofmaps ++ "/" ++
            toString ((viewExample.ifmap_shape.drop (i + 1)).prod) ++ ")%" ++
            toString (viewExample.ifmap_shape.getD i 0)) ∧
      viewExampleConfig.shape.data_spaces =
        [ { name := viewExample.ifmap_name
            projection := "[ " ++ String.intercalate ", " ts ++ " ]"
            read_write := false }
        , { name := viewExample.ofmap_name
            projection := "[ " ++
              String.intercalate ", "
                (asciiDims viewExample.ofmap_shape.length) ++ " ]"
            read_write := true } ]) ∧
    viewExample.linearized_ofmaps =
      String.intercalate " + "
        (suffixTerms (fun cur p => p.1 ++ "*" ++ toString cur) Prod.snd 1
          ((asciiDims viewExample.ofmap_shape.length).zip
            viewExample.ofmap_shape)).reverse) :=
  ⟨by decide,
   view_fused_projection_structure viewExample viewExampleConfig (by decide)⟩

/-- Witness for C8: a rank-1 first operand is neither of the two supported
shape combinations, so classification fails. -/
theorem generate_matmul_func_unsupported_shapes_witness :
    generate_matmul_func [5] [5, 5] "mm" "a" "b" = none :=
  (generate_matmul_func_unsupported_shapes.1 [5] [5, 5] "mm" "a" "b").mpr
    (by decide)
